import Mathlib

/-!
Verification of the nauth session-lifecycle engine and its Redis-modelled
storage adapter, as a shallow embedding of the TypeScript sources
(`src/core/verifier-logic.ts`, `src/core/user.do` (embedded in
`verifier-login.spec.ts`), `src/db/redis-db.adapter.ts`,
`src/constant/auth-code.constant.ts`, `src/exception`).

Time (`Date.now()`) is passed explicitly as an `Int` of epoch milliseconds;
each engine operation receives one `now` value, matching a single call
instant.  The Redis store is modelled as four point-wise maps keyed by the
full Redis key string: the session hashes, the per-key millisecond TTLs,
the context hashes and the reverse token index.  `MULTI`/`EXEC` batches are
modelled as the composite store transformation (one all-or-nothing update);
per-command network failures are not modelled, so `isRmultiHasErr` is
identically null.
-/

namespace Nauth

/-- Error codes of `auth-code.constant.ts` (`AUTH_CODE`). -/
inductive AUTH_CODE
  | NOT_LOGIN
  | NOT_PERMISSION
  | LOGIN_EXPIRED
  | KICKED_OUT
  | BANNED
  | SHORT_BAN
deriving DecidableEq, Repr

/-- Mutex error codes of `mutex-code.constant` (`MUTEX_CODE`). -/
inductive MUTEX_CODE
  | SYSTEM_MUTEX
  | LOCK_TIMEOUT
  | UNLOCK_FAILED
deriving DecidableEq, Repr

/-- The typed failures surfaced by the engine and the adapter:
`NotLoginException` (message and `AUTH_CODE`), `DbStorageException`,
and plain `Error` throws (validation errors such as `checkNewUser`). -/
inductive NauthError
  | notLogin (msg : String) (code : AUTH_CODE)
  | storage (msg : String)
  | validation (msg : String)
deriving DecidableEq, Repr

/-- `UserDO` / `IUser` (`user.do.ts`): one session record.  `duration` is the
ban deadline field (`-1` permanent ban, `0` unbanned, otherwise compared
against now), `ctx` the auxiliary context map. -/
structure UserDO where
  id : String
  type : String
  token : String
  createTime : Int := 0
  updateTime : Int := 0
  expireTime : Int
  renewCount : Int := 0
  disabled : Bool := false
  duration : Int := 0
  kicked : Bool := false
  permanent : Bool := false
  ctx : List (String × String) := []
deriving DecidableEq, Repr

/-- The `UserDO` constructor: `expireTime || 15*24*60*60*1000 + Date.now()` —
a falsy (`0`) expire argument is replaced by the 15-day default. -/
def UserDO.make (id ty token : String) (now expire : Int) : UserDO :=
  { id := id, type := ty, token := token,
    createTime := now, updateTime := now,
    expireTime := if expire = 0 then 15 * 24 * 60 * 60 * 1000 + now else expire }

/-- `UserDO.checkNewUser`: validation run by `save`.  Both checks are guarded
by JS truthiness of `expireTime` (`user.expireTime && ...`), so a record with
`expireTime = 0` skips validation entirely.  Returns the thrown message. -/
def UserDO.checkNewUser (now : Int) (u : UserDO) : Option String :=
  if u.expireTime ≠ 0 ∧ u.expireTime < now then
    some "The expire time does not less than now"
  else if u.expireTime ≠ 0 ∧ u.expireTime - now < 30 * 60 * 1000 then
    some "The expire time does not less than 30 minutes"
  else
    none

/-- `UserDO.convert`: `find` parses the stored hash back through the `UserDO`
constructor, so a stored `expireTime` of `0` is re-defaulted to
`15 days + now`; the context map is not part of the session hash. -/
def UserDO.convert (now : Int) (u : UserDO) : UserDO :=
  { u with
    expireTime := if u.expireTime = 0 then 15 * 24 * 60 * 60 * 1000 + now else u.expireTime,
    ctx := [] }

/-- `NauthConfiguration` (`configuration.ts`), seconds-based options with the
source defaults. -/
structure NauthConfiguration where
  tokenName : String := "token"
  tokenTimeout : Int := 3 * 24 * 60 * 60
  tokenStyle : String := "UUID"
  tokenPrefix : String := "Bearer "
  tokenRenew : Int := 24 * 60 * 60
  tokenRenewCondition : Int := 12 * 60 * 60
deriving DecidableEq, Repr

/-- Point update of a string-keyed map. -/
def upd {α : Type} (f : String → α) (k : String) (v : α) : String → α :=
  fun x => if x = k then v else f x

/-- The Redis keyspace as seen by `RedisDBAdapter` (`_prefix = 'NAUTH'`):
session hash `NAUTH:{id}`, per-key TTL (`none` = persistent), context hash
`NAUTH:{id}:CTX` (an empty hash and an absent key coincide in Redis), and
reverse index `NAUTH:LOGIN:{token} → id`. -/
structure Store where
  sessions : String → Option UserDO
  ttl : String → Option Int
  ctxs : String → List (String × String)
  loginIdx : String → Option String

def Store.empty : Store :=
  ⟨fun _ => none, fun _ => none, fun _ => [], fun _ => none⟩

/-- `NAUTH:{id}` — the session hash key. -/
def sessKey (id : String) : String := "NAUTH:" ++ id

/-- `NAUTH:{id}:CTX` — the context hash key. -/
def ctxKey (id : String) : String := "NAUTH:" ++ id ++ ":CTX"

/-- `NAUTH:LOGIN:{token}` — the reverse index key. -/
def tokKey (token : String) : String := "NAUTH:LOGIN:" ++ token

namespace RedisDBAdapter

/-- `exists(id)`: Redis `EXISTS` on the session hash. -/
def existsKey (s : Store) (id : String) : Bool :=
  (s.sessions (sessKey id)).isSome

/-- `find(id)`: `HGETALL` then `UserDO.convert`; empty hash means null. -/
def find (now : Int) (s : Store) (id : String) : Option UserDO :=
  match s.sessions (sessKey id) with
  | none => none
  | some u => some (UserDO.convert now u)

/-- `save(user)`: validate via `checkNewUser`, then in one `MULTI` batch write
every record field into the session hash, the context entries (only if
non-empty), and the reverse index `token → id`; every written key gets the
millisecond TTL `expireTime + 24h - now` unless `permanent` (the plain `SET`
on the reverse index clears any TTL that key carried). -/
def save (now : Int) (s : Store) (u : UserDO) : Except NauthError Store :=
  match UserDO.checkNewUser now u with
  | some msg => .error (.validation msg)
  | none =>
    let keyExpire : Option Int :=
      if u.permanent then none else some (u.expireTime + 24 * 60 * 60 * 1000 - now)
    let s1 : Store :=
      { s with
        sessions := upd s.sessions (sessKey u.id) (some { u with ctx := [] }),
        ttl := match keyExpire with
          | some e => upd s.ttl (sessKey u.id) (some e)
          | none => s.ttl }
    let s2 : Store :=
      if u.ctx ≠ [] then
        { s1 with
          ctxs := upd s1.ctxs (ctxKey u.id) u.ctx,
          ttl := match keyExpire with
            | some e => upd s1.ttl (ctxKey u.id) (some e)
            | none => s1.ttl }
      else s1
    let s3 : Store :=
      { s2 with
        loginIdx := upd s2.loginIdx (tokKey u.token) (some u.id),
        ttl := match keyExpire with
          | some e => upd s2.ttl (tokKey u.token) (some e)
          | none => upd s2.ttl (tokKey u.token) none }
    .ok s3

/-- A partial `IUser` as passed to `update` (`Partial<IUser> & Pick<IUser,'id'>`):
a `some` field is a present (written) property. -/
structure UserPatch where
  id : String
  type : Option String := none
  token : Option String := none
  createTime : Option Int := none
  updateTime : Option Int := none
  expireTime : Option Int := none
  renewCount : Option Int := none
  disabled : Option Bool := none
  duration : Option Int := none
  kicked : Option Bool := none
  permanent : Option Bool := none
deriving DecidableEq, Repr

/-- The field writes of `update`: `hset` of each present property of the
patch (`id` and `ctx` are filtered out). -/
def applyPatch (p : UserPatch) (u : UserDO) : UserDO :=
  { u with
    type := p.type.getD u.type,
    token := p.token.getD u.token,
    createTime := p.createTime.getD u.createTime,
    updateTime := p.updateTime.getD u.updateTime,
    expireTime := p.expireTime.getD u.expireTime,
    renewCount := p.renewCount.getD u.renewCount,
    disabled := p.disabled.getD u.disabled,
    duration := p.duration.getD u.duration,
    kicked := p.kicked.getD u.kicked,
    permanent := p.permanent.getD u.permanent }

/-- The TTL adjustment of `update` for one logical key group: `persist` the
session hash, the reverse index key and (when it exists) the context hash,
or `pexpire` all of them. -/
def retime (s : Store) (id token : String) (e : Option Int) : Store :=
  let s' := { s with ttl := upd s.ttl (sessKey id) e }
  let s'' := { s' with ttl := upd s'.ttl (tokKey token) e }
  if s''.ctxs (ctxKey id) ≠ [] then
    { s'' with ttl := upd s''.ttl (ctxKey id) e }
  else s''

/-- `update(partial)`: stamps `updateTime = now`; requires the record to
exist (else `DbStorageException`); adjusts TTL/persistence across the three
linked keys when `permanent` or `expireTime` is present in the patch; then
writes the present fields into the session hash in the same batch. -/
def update (now : Int) (s : Store) (p0 : UserPatch) : Except NauthError Store :=
  let p := { p0 with updateTime := some now }
  match find now s p.id with
  | none => .error (.storage "The user does not exist")
  | some dbUser =>
    let s1 :=
      match p.permanent with
      | some true => retime s p.id dbUser.token none
      | some false => retime s p.id dbUser.token (some (dbUser.expireTime + 24 * 60 * 60 * 1000 - now))
      | none => s
    let s2 :=
      match p.expireTime with
      | some e => retime s1 p.id dbUser.token (some (e + 24 * 60 * 60 * 1000 - now))
      | none => s1
    match s2.sessions (sessKey p.id) with
    | none => .error (.storage "The user does not exist")
    | some stored =>
      .ok { s2 with sessions := upd s2.sessions (sessKey p.id) (some (applyPatch p stored)) }

/-- `delete(id)`: a single `DEL NAUTH:{id}`; a zero reply (key absent) is a
`DbStorageException`.  The reverse index and the context hash are not
touched. -/
def delete (s : Store) (id : String) : Except NauthError Store :=
  if (s.sessions (sessKey id)).isSome then
    .ok { s with
          sessions := upd s.sessions (sessKey id) none,
          ttl := upd s.ttl (sessKey id) none }
  else
    .error (.storage "The redis delete operation failed, the user does not exist or network error")

/-- `key(token)`: reverse lookup; a stored id is re-prefixed with `NAUTH:`. -/
def key (s : Store) (token : String) : Option String :=
  match s.loginIdx (tokKey token) with
  | none => none
  | some v => some ("NAUTH:" ++ v)

end RedisDBAdapter

/-- `EVENT_TYPE` of `verifier-logic.ts`. -/
inductive EVENT_TYPE
  | LOGIN
  | LOGOUT
  | EXPIRED
  | KICKOUT
  | KICKOUT_FEEDBACK
  | OFFLINE_ALL
deriving DecidableEq, Repr

/-- The untyped `payload: any` of an event: a (possibly null) record, a
principal id, or null. -/
inductive EventPayload
  | user (u : Option UserDO)
  | uid (id : String)
  | null
deriving DecidableEq, Repr

/-- An emitted `{type, payload}` event. -/
structure Event where
  type : EVENT_TYPE
  payload : EventPayload
deriving DecidableEq, Repr

/-- Outcome of one engine operation: the returned or thrown value, the store
after all mutations that committed before the return/throw, and the events
pushed to the subject, in emission order. -/
structure OpOut (α : Type) where
  res : Except NauthError α
  store : Store
  events : List Event

/-- `TYPE.toUpperCase()` — character-wise ASCII upper-casing. -/
def jsToUpper (s : String) : String := ⟨s.data.map Char.toUpper⟩

/-- The engine key `${TYPE.toUpperCase()}_LOGIN:${id}`. -/
def engineKey (ty id : String) : String := jsToUpper ty ++ "_LOGIN:" ++ id

namespace VerifierLogic

/-- `login(id)`: build the record with `expireTime = now + tokenTimeout*1000`
(the token string produced by the external `tokenMake` factory is a
parameter), `save` it, emit `LOGIN`, return the token. -/
def login (cfg : NauthConfiguration) (ty : String) (now : Int) (token : String)
    (s : Store) (id : String) : OpOut String :=
  let k := engineKey ty id
  let user := UserDO.make k ty token now (now + cfg.tokenTimeout * 1000)
  match RedisDBAdapter.save now s user with
  | .ok s' => ⟨.ok token, s', [⟨.LOGIN, .user (some user)⟩]⟩
  | .error e => ⟨.error e, s, []⟩

/-- `kickout(id)`: partial update `kicked = true`, then emit `KICKOUT` with
the raw id as payload. -/
def kickout (now : Int) (ty : String) (s : Store) (id : String) : OpOut Unit :=
  match RedisDBAdapter.update now s { id := engineKey ty id, kicked := some true } with
  | .ok s' => ⟨.ok (), s', [⟨.KICKOUT, .uid id⟩]⟩
  | .error e => ⟨.error e, s, []⟩

/-- The `disable` duration conversion: the source line
`duration *= 1000 + Date.now()` multiplies the whole sum, so a duration
other than `-1`/`0` becomes `d * (1000 + now)`. -/
def disableDuration (now d : Int) : Int :=
  if d ≠ -1 ∧ d ≠ 0 then d * (1000 + now) else d

/-- `disable(id, duration)`: partial update `disabled = true` with the
converted `duration`; no event. -/
def disable (now : Int) (ty : String) (s : Store) (id : String) (d : Int) : OpOut Unit :=
  match RedisDBAdapter.update now s
      { id := engineKey ty id, disabled := some true, duration := some (disableDuration now d) } with
  | .ok s' => ⟨.ok (), s', []⟩
  | .error e => ⟨.error e, s, []⟩

/-- `enable(id)`: partial update `disabled = false, duration = 0`. -/
def enable (now : Int) (ty : String) (s : Store) (id : String) : OpOut Unit :=
  match RedisDBAdapter.update now s
      { id := engineKey ty id, disabled := some false, duration := some 0 } with
  | .ok s' => ⟨.ok (), s', []⟩
  | .error e => ⟨.error e, s, []⟩

/-- `permanent(id)`: partial update `permanent = true`. -/
def permanent (now : Int) (ty : String) (s : Store) (id : String) : OpOut Unit :=
  match RedisDBAdapter.update now s { id := engineKey ty id, permanent := some true } with
  | .ok s' => ⟨.ok (), s', []⟩
  | .error e => ⟨.error e, s, []⟩

/-- `nonPermanent(id)`: partial update `permanent = false`. -/
def nonPermanent (now : Int) (ty : String) (s : Store) (id : String) : OpOut Unit :=
  match RedisDBAdapter.update now s { id := engineKey ty id, permanent := some false } with
  | .ok s' => ⟨.ok (), s', []⟩
  | .error e => ⟨.error e, s, []⟩

/-- `cleanLogin(id)`: best-effort delete guarded by `exists`. -/
def cleanLogin (s : Store) (k : String) : Except NauthError Store :=
  if RedisDBAdapter.existsKey s k then RedisDBAdapter.delete s k else .ok s

/-- The full-record patch `renew` passes to `update` (`Object.entries` of the
found record; `id` and `ctx` are filtered out by `update` itself). -/
def UserPatch.ofUser (u : UserDO) : RedisDBAdapter.UserPatch :=
  { id := u.id, type := some u.type, token := some u.token,
    createTime := some u.createTime, updateTime := some u.updateTime,
    expireTime := some u.expireTime, renewCount := some u.renewCount,
    disabled := some u.disabled, duration := some u.duration,
    kicked := some u.kicked, permanent := some u.permanent }

/-- `renew(id)`: re-read the record, bump `renewCount`, extend `expireTime`
by `tokenRenew * 1000`, and push the whole record through `update`. -/
def renew (cfg : NauthConfiguration) (ty : String) (now : Int) (s : Store)
    (id : String) : OpOut Unit :=
  match RedisDBAdapter.find now s (engineKey ty id) with
  | none => ⟨.error (.notLogin "The user is not logged in" .NOT_LOGIN), s, []⟩
  | some user =>
    let u2 := { user with
      renewCount := user.renewCount + 1,
      expireTime := user.expireTime + cfg.tokenRenew * 1000 }
    match RedisDBAdapter.update now s (UserPatch.ofUser u2) with
    | .ok s' => ⟨.ok (), s', []⟩
    | .error e => ⟨.error e, s, []⟩

/-- `needRenew(user)`: `expireTime - now < tokenRenewCondition * 1000`. -/
def needRenew (cfg : NauthConfiguration) (now : Int) (u : UserDO) : Prop :=
  u.expireTime - now < cfg.tokenRenewCondition * 1000

instance (cfg : NauthConfiguration) (now : Int) (u : UserDO) :
    Decidable (needRenew cfg now u) := by unfold needRenew; infer_instance

/-- `checkLogin(id)`: fail `NOT_LOGIN` when the key is absent or unreadable;
if `kicked`, delete lazily, emit `KICKOUT_FEEDBACK` with the pre-deletion
record, fail `KICKED_OUT`; if expired and not permanent, delete lazily, emit
`EXPIRED`, fail `LOGIN_EXPIRED`; otherwise renew implicitly when
`needRenew`.  Kick check precedes expiry check precedes renew check. -/
def checkLogin (cfg : NauthConfiguration) (ty : String) (now : Int) (s : Store)
    (id : String) : OpOut Unit :=
  let k := engineKey ty id
  if ¬ RedisDBAdapter.existsKey s k then
    ⟨.error (.notLogin "The user is not logged in" .NOT_LOGIN), s, []⟩
  else
    match RedisDBAdapter.find now s k with
    | none => ⟨.error (.notLogin "The user is not logged in" .NOT_LOGIN), s, []⟩
    | some user =>
      if user.kicked then
        let user2 := RedisDBAdapter.find now s k
        match cleanLogin s k with
        | .ok s' =>
          ⟨.error (.notLogin "The user is kicked out" .KICKED_OUT), s',
            [⟨.KICKOUT_FEEDBACK, .user user2⟩]⟩
        | .error e => ⟨.error e, s, []⟩
      else if user.expireTime < now ∧ user.permanent = false then
        match cleanLogin s k with
        | .ok s' =>
          ⟨.error (.notLogin "The user is expired" .LOGIN_EXPIRED), s',
            [⟨.EXPIRED, .uid id⟩]⟩
        | .error e => ⟨.error e, s, []⟩
      else if needRenew cfg now user then
        renew cfg ty now s id
      else
        ⟨.ok (), s, []⟩

/-- `isLogin(id)`: `checkLogin` with `NotLoginException` downgraded to
`false`; other errors propagate. -/
def isLogin (cfg : NauthConfiguration) (ty : String) (now : Int) (s : Store)
    (id : String) : OpOut Bool :=
  let c := checkLogin cfg ty now s id
  match c.res with
  | .ok _ => ⟨.ok true, c.store, c.events⟩
  | .error (.notLogin _ _) => ⟨.ok false, c.store, c.events⟩
  | .error e => ⟨.error e, c.store, c.events⟩

/-- `logout(id)`: empty-id guard, then if logged in, read the record, delete
it and emit `LOGOUT` with the deleted record. -/
def logout (cfg : NauthConfiguration) (ty : String) (now : Int) (s : Store)
    (id : String) : OpOut Unit :=
  if id = "" then ⟨.error (.validation "The id is empty or null"), s, []⟩
  else
    let c := isLogin cfg ty now s id
    match c.res with
    | .ok true =>
      let k := engineKey ty id
      let user := RedisDBAdapter.find now c.store k
      match RedisDBAdapter.delete c.store k with
      | .ok s2 => ⟨.ok (), s2, c.events ++ [⟨.LOGOUT, .user user⟩]⟩
      | .error e => ⟨.error e, c.store, c.events⟩
    | .ok false => ⟨.ok (), c.store, c.events⟩
    | .error e => ⟨.error e, c.store, c.events⟩

/-- `checkDisable(id)`: `checkLogin` first (propagating failures); then on a
disabled record: `-1` fails `BANNED`; a lapsed or zero deadline is cleared
via `enable` and succeeds; a future deadline fails `SHORT_BAN`.  The `user!`
non-null assertion after a successful `checkLogin` would crash on a null
record in the source; that unreachable branch is modelled as a storage
error. -/
def checkDisable (cfg : NauthConfiguration) (ty : String) (now : Int) (s : Store)
    (id : String) : OpOut Unit :=
  let c := checkLogin cfg ty now s id
  match c.res with
  | .error e => ⟨.error e, c.store, c.events⟩
  | .ok _ =>
    match RedisDBAdapter.find now c.store (engineKey ty id) with
    | none => ⟨.error (.storage "TypeError: user is null"), c.store, c.events⟩
    | some user =>
      if user.disabled then
        if user.duration = -1 then
          ⟨.error (.notLogin "The user is permanently disabled" .BANNED), c.store, c.events⟩
        else if ¬ (user.duration > now) ∨ user.duration = 0 then
          let en := enable now ty c.store id
          match en.res with
          | .ok _ => ⟨.ok (), en.store, c.events ++ en.events⟩
          | .error e => ⟨.error e, en.store, c.events ++ en.events⟩
        else
          ⟨.error (.notLogin "The user is disabled now" .SHORT_BAN), c.store, c.events⟩
      else
        ⟨.ok (), c.store, c.events⟩

/-- `info(id)`: `find` on the engine key. -/
def info (now : Int) (ty : String) (s : Store) (id : String) : Option UserDO :=
  RedisDBAdapter.find now s (engineKey ty id)

end VerifierLogic

/-- JavaScript `str.split(':')` on the character list: splits at every colon,
keeping empty pieces. -/
def splitColon : List Char → List (List Char)
  | [] => [[]]
  | c :: cs =>
    match splitColon cs with
    | [] => [[]]
    | h :: t => if c = ':' then [] :: h :: t else (c :: h) :: t

/-- JavaScript `parts.join(':')`. -/
def joinColon : List (List Char) → List Char
  | [] => []
  | [x] => x
  | x :: xs => x ++ ':' :: joinColon xs

/-- `key.split(':').slice(2).join(':')` — the decoding step of `loginID`. -/
def jsSplitColonJoinDrop2 (s : String) : String :=
  ⟨joinColon ((splitColon s.data).drop 2)⟩

namespace VerifierLogic

/-- `loginID(token)`: reverse lookup via the adapter's token index; the
namespaced key is decoded back to the principal id by dropping the first two
`:`-separated segments. -/
def loginID (s : Store) (token : String) : Option String :=
  match RedisDBAdapter.key s token with
  | none => none
  | some k => some (jsSplitColonJoinDrop2 k)

end VerifierLogic

/-!
Fair distributed lock (claim C6).

Modelled from the spec: the implementation of the per-id fair lock
(`acquireLock` / `releaseLock` / `withLock` on `RedisDBAdapter`) is not
under `src/` — only its unit tests and the spec §4.2 describe it.  The
protocol: a caller atomically appends a fresh ticket to a FIFO wait queue;
it may set the lock key (set-if-absent with `lockTimeout` expiry) only once
its ticket is at the head of the queue; release deletes the lock key and
pops the head; acquisition is bounded by `acquireTimeout` and exceeding it
fails with `MUTEX_CODE.LOCK_TIMEOUT`.

The model: `N` callers enqueue tickets `0, …, N-1` at time `0` in FIFO
order.  Between the release of caller `k` and the acquisition by caller
`k+1` no third party can intervene (the queue head is already `k+1`), so
caller `k`'s hold time `hold k` — bounded by `lockTimeout`, since the lock
key self-expires — fully determines the schedule.
-/

namespace FairLock

/-- Time at which the caller holding ticket `k` acquires the lock: ticket `0`
acquires immediately; ticket `k+1` acquires when `k` releases. -/
def acquireAt (hold : Nat → Nat) : Nat → Nat
  | 0 => 0
  | k + 1 => acquireAt hold k + hold k

/-- The wait queue after the first `k` tickets have been served: tickets
`k, …, N-1` in FIFO order. -/
def queueAfter (N k : Nat) : List Nat :=
  (List.range N).drop k

/-- Modelled from the spec: the outcome of one `acquireLock` bounded by
`acquireTimeout` — the caller either acquires at its scheduled time or, if
that exceeds the bound, fails with `LOCK_TIMEOUT`. -/
def lockResult (acquireTimeout : Nat) (hold : Nat → Nat) (k : Nat) :
    Except MUTEX_CODE Nat :=
  if acquireAt hold k ≤ acquireTimeout then .ok (acquireAt hold k)
  else .error .LOCK_TIMEOUT

end FairLock

/-- Boolean success test for `Except` results. -/
def exOk {ε α : Type} : Except ε α → Bool
  | .ok _ => true
  | .error _ => false

instance {ε α : Type} [DecidableEq ε] [DecidableEq α] : DecidableEq (Except ε α) := fun a b =>
  match a, b with
  | .ok x, .ok y =>
    if h : x = y then .isTrue (by rw [h]) else .isFalse (fun hh => h (Except.ok.inj hh))
  | .error x, .error y =>
    if h : x = y then .isTrue (by rw [h]) else .isFalse (fun hh => h (Except.error.inj hh))
  | .ok _, .error _ => .isFalse (fun hh => Except.noConfusion hh)
  | .error _, .ok _ => .isFalse (fun hh => Except.noConfusion hh)

/-- A demo session record used by the concrete-input theorems. -/
def demoUser : UserDO :=
  { id := "USER_LOGIN:u1", type := "user", token := "T", expireTime := 5000000 }

/-- A store holding exactly `demoUser`. -/
def demoStore : Store :=
  { Store.empty with
    sessions := upd Store.empty.sessions (sessKey "USER_LOGIN:u1") (some demoUser) }

/-- `demoUser` with `expireTime = 0` (the JS-falsy sentinel). -/
def zeroExpireUser : UserDO :=
  { id := "USER_LOGIN:u1", type := "user", token := "T", expireTime := 0 }

/-- A store holding exactly `zeroExpireUser`. -/
def zeroExpireStore : Store :=
  { Store.empty with
    sessions := upd Store.empty.sessions (sessKey "USER_LOGIN:u1") (some zeroExpireUser) }

/-- A record passed directly to `save` with the falsy `expireTime`. -/
def c8user : UserDO := { id := "u", type := "user", token := "T", expireTime := 0 }

/-- The source-default configuration. -/
def defaultCfg : NauthConfiguration := {}

/-- A permanently banned demo record (`disabled`, `duration = -1`). -/
def permBanUser : UserDO :=
  { id := "USER_LOGIN:u1", type := "user", token := "T", expireTime := 99999999999,
    disabled := true, duration := -1 }

/-- A store holding exactly `permBanUser`. -/
def permBanStore : Store :=
  { Store.empty with
    sessions := upd Store.empty.sessions (sessKey "USER_LOGIN:u1") (some permBanUser) }

/-!  Theorems.  -/

theorem upd_self {α : Type} (f : String → α) (k : String) (v : α) : upd f k v k = v := by
  simp [upd]

theorem upd_ne {α : Type} (f : String → α) {k x : String} (v : α) (h : x ≠ k) :
    upd f k v x = f x := by
  simp [upd, h]

theorem UserDO.convert_id (now : Int) (u : UserDO) : (u.convert now).id = u.id := rfl

theorem UserDO.convert_token (now : Int) (u : UserDO) : (u.convert now).token = u.token := rfl

theorem UserDO.convert_kicked (now : Int) (u : UserDO) : (u.convert now).kicked = u.kicked := rfl

theorem UserDO.convert_permanent (now : Int) (u : UserDO) :
    (u.convert now).permanent = u.permanent := rfl

theorem UserDO.convert_disabled (now : Int) (u : UserDO) :
    (u.convert now).disabled = u.disabled := rfl

theorem UserDO.convert_duration (now : Int) (u : UserDO) :
    (u.convert now).duration = u.duration := rfl

theorem UserDO.convert_renewCount (now : Int) (u : UserDO) :
    (u.convert now).renewCount = u.renewCount := rfl

theorem UserDO.convert_expireTime_of_ne (now : Int) (u : UserDO) (h : u.expireTime ≠ 0) :
    (u.convert now).expireTime = u.expireTime := by
  simp [UserDO.convert, h]

theorem retime_sessions (s : Store) (id token : String) (e : Option Int) :
    (RedisDBAdapter.retime s id token e).sessions = s.sessions := by
  unfold RedisDBAdapter.retime
  dsimp only
  split <;> rfl

theorem retime_ctxs (s : Store) (id token : String) (e : Option Int) :
    (RedisDBAdapter.retime s id token e).ctxs = s.ctxs := by
  unfold RedisDBAdapter.retime
  dsimp only
  split <;> rfl

theorem retime_loginIdx (s : Store) (id token : String) (e : Option Int) :
    (RedisDBAdapter.retime s id token e).loginIdx = s.loginIdx := by
  unfold RedisDBAdapter.retime
  dsimp only
  split <;> rfl

theorem existsKey_some {s : Store} {K : String} {u : UserDO}
    (hs : s.sessions (sessKey K) = some u) : RedisDBAdapter.existsKey s K = true := by
  simp [RedisDBAdapter.existsKey, hs]

theorem find_some {s : Store} {K : String} {u : UserDO} (now : Int)
    (hs : s.sessions (sessKey K) = some u) :
    RedisDBAdapter.find now s K = some (u.convert now) := by
  simp [RedisDBAdapter.find, hs]

theorem find_none {s : Store} {K : String} (now : Int)
    (hs : s.sessions (sessKey K) = none) :
    RedisDBAdapter.find now s K = none := by
  simp [RedisDBAdapter.find, hs]

/-- The store after `delete` succeeds on an existing session. -/
def delStore (s : Store) (K : String) : Store :=
  { s with sessions := upd s.sessions (sessKey K) none, ttl := upd s.ttl (sessKey K) none }

theorem delete_some {s : Store} {K : String} {u : UserDO}
    (hs : s.sessions (sessKey K) = some u) :
    RedisDBAdapter.delete s K = .ok (delStore s K) := by
  simp [RedisDBAdapter.delete, hs, delStore]

theorem cleanLogin_some {s : Store} {K : String} {u : UserDO}
    (hs : s.sessions (sessKey K) = some u) :
    VerifierLogic.cleanLogin s K = .ok (delStore s K) := by
  simp [VerifierLogic.cleanLogin, existsKey_some hs, delete_some hs]

/-- `update` on an existing record: success, the patched record replaces the
stored one, and everything else (other sessions, contexts, reverse index) is
untouched.  Only the TTL map may additionally change. -/
theorem update_ok (now : Int) (s : Store) (p : RedisDBAdapter.UserPatch) (u : UserDO)
    (hs : s.sessions (sessKey p.id) = some u) :
    ∃ s', RedisDBAdapter.update now s p = .ok s' ∧
      s'.sessions (sessKey p.id) =
        some (RedisDBAdapter.applyPatch { p with updateTime := some now } u) ∧
      (∀ k, k ≠ sessKey p.id → s'.sessions k = s.sessions k) ∧
      s'.loginIdx = s.loginIdx ∧ s'.ctxs = s.ctxs := by
  unfold RedisDBAdapter.update
  dsimp only
  rw [find_some now hs]
  cases hperm : p.permanent with
  | none =>
    cases hexp : p.expireTime with
    | none =>
      dsimp only
      rw [hs]
      refine ⟨_, rfl, ?_, ?_, rfl, rfl⟩
      · dsimp only; rw [upd_self]
      · intro k hk; dsimp only; rw [upd_ne _ _ hk]
    | some e =>
      dsimp only
      rw [retime_sessions, hs]
      refine ⟨_, rfl, ?_, ?_, ?_, ?_⟩
      · dsimp only; rw [upd_self]
      · intro k hk; dsimp only; rw [upd_ne _ _ hk]
      · dsimp only; rw [retime_loginIdx]
      · dsimp only; rw [retime_ctxs]
  | some b =>
    cases b with
    | true =>
      cases hexp : p.expireTime with
      | none =>
        dsimp only
        rw [retime_sessions, hs]
        refine ⟨_, rfl, ?_, ?_, ?_, ?_⟩
        · dsimp only; rw [upd_self]
        · intro k hk; dsimp only; rw [upd_ne _ _ hk]
        · dsimp only; rw [retime_loginIdx]
        · dsimp only; rw [retime_ctxs]
      | some e =>
        dsimp only
        rw [retime_sessions, retime_sessions, hs]
        refine ⟨_, rfl, ?_, ?_, ?_, ?_⟩
        · dsimp only; rw [upd_self]
        · intro k hk; dsimp only; rw [upd_ne _ _ hk]
        · dsimp only; rw [retime_loginIdx, retime_loginIdx]
        · dsimp only; rw [retime_ctxs, retime_ctxs]
    | false =>
      cases hexp : p.expireTime with
      | none =>
        dsimp only
        rw [retime_sessions, hs]
        refine ⟨_, rfl, ?_, ?_, ?_, ?_⟩
        · dsimp only; rw [upd_self]
        · intro k hk; dsimp only; rw [upd_ne _ _ hk]
        · dsimp only; rw [retime_loginIdx]
        · dsimp only; rw [retime_ctxs]
      | some e =>
        dsimp only
        rw [retime_sessions, retime_sessions, hs]
        refine ⟨_, rfl, ?_, ?_, ?_, ?_⟩
        · dsimp only; rw [upd_self]
        · intro k hk; dsimp only; rw [upd_ne _ _ hk]
        · dsimp only; rw [retime_loginIdx, retime_loginIdx]
        · dsimp only; rw [retime_ctxs, retime_ctxs]

theorem checkLogin_notfound (cfg : NauthConfiguration) (ty id : String) (now : Int)
    (s : Store) (hs : s.sessions (sessKey (engineKey ty id)) = none) :
    VerifierLogic.checkLogin cfg ty now s id =
      ⟨.error (.notLogin "The user is not logged in" .NOT_LOGIN), s, []⟩ := by
  unfold VerifierLogic.checkLogin
  simp [RedisDBAdapter.existsKey, hs]

theorem checkLogin_kicked (cfg : NauthConfiguration) (ty id : String) (now : Int)
    (s : Store) (u : UserDO)
    (hs : s.sessions (sessKey (engineKey ty id)) = some u) (hk : u.kicked = true) :
    VerifierLogic.checkLogin cfg ty now s id =
      ⟨.error (.notLogin "The user is kicked out" .KICKED_OUT),
        delStore s (engineKey ty id),
        [⟨.KICKOUT_FEEDBACK, .user (some (u.convert now))⟩]⟩ := by
  unfold VerifierLogic.checkLogin
  simp [existsKey_some hs, find_some now hs, cleanLogin_some hs, UserDO.convert_kicked, hk]

theorem checkLogin_expired (cfg : NauthConfiguration) (ty id : String) (now : Int)
    (s : Store) (u : UserDO)
    (hs : s.sessions (sessKey (engineKey ty id)) = some u) (hk : u.kicked = false)
    (hp : u.permanent = false) (hlt : (u.convert now).expireTime < now) :
    VerifierLogic.checkLogin cfg ty now s id =
      ⟨.error (.notLogin "The user is expired" .LOGIN_EXPIRED),
        delStore s (engineKey ty id), [⟨.EXPIRED, .uid id⟩]⟩ := by
  unfold VerifierLogic.checkLogin
  simp [existsKey_some hs, find_some now hs, cleanLogin_some hs, UserDO.convert_kicked, hk,
    UserDO.convert_permanent, hp, hlt]

theorem checkLogin_active (cfg : NauthConfiguration) (ty id : String) (now : Int)
    (s : Store) (u : UserDO)
    (hs : s.sessions (sessKey (engineKey ty id)) = some u) (hk : u.kicked = false)
    (hexp : ¬((u.convert now).expireTime < now ∧ u.permanent = false))
    (hnr : ¬ VerifierLogic.needRenew cfg now (u.convert now)) :
    VerifierLogic.checkLogin cfg ty now s id = ⟨.ok (), s, []⟩ := by
  unfold VerifierLogic.checkLogin
  simp [existsKey_some hs, find_some now hs, UserDO.convert_kicked,
    UserDO.convert_permanent, hk, hexp, hnr]

theorem checkLogin_renews (cfg : NauthConfiguration) (ty id : String) (now : Int)
    (s : Store) (u : UserDO)
    (hs : s.sessions (sessKey (engineKey ty id)) = some u) (hk : u.kicked = false)
    (hexp : ¬((u.convert now).expireTime < now ∧ u.permanent = false))
    (hnr : VerifierLogic.needRenew cfg now (u.convert now)) :
    VerifierLogic.checkLogin cfg ty now s id = VerifierLogic.renew cfg ty now s id := by
  unfold VerifierLogic.checkLogin
  simp [existsKey_some hs, find_some now hs, UserDO.convert_kicked,
    UserDO.convert_permanent, hk, hexp, hnr]

theorem renew_ok (cfg : NauthConfiguration) (ty id : String) (now : Int)
    (s : Store) (u : UserDO)
    (hs : s.sessions (sessKey (engineKey ty id)) = some u)
    (hid : u.id = engineKey ty id) :
    (VerifierLogic.renew cfg ty now s id).res = .ok () ∧
    (VerifierLogic.renew cfg ty now s id).events = [] ∧
    ∃ u', (VerifierLogic.renew cfg ty now s id).store.sessions (sessKey (engineKey ty id)) = some u' ∧
      u'.id = u.id ∧ u'.token = u.token ∧ u'.disabled = u.disabled ∧
      u'.duration = u.duration ∧ u'.kicked = u.kicked ∧ u'.permanent = u.permanent ∧
      u'.renewCount = u.renewCount + 1 ∧
      u'.expireTime = (u.convert now).expireTime + cfg.tokenRenew * 1000 ∧
      (∀ k, k ≠ sessKey (engineKey ty id) →
        (VerifierLogic.renew cfg ty now s id).store.sessions k = s.sessions k) ∧
      (VerifierLogic.renew cfg ty now s id).store.loginIdx = s.loginIdx ∧
      (VerifierLogic.renew cfg ty now s id).store.ctxs = s.ctxs := by
  unfold VerifierLogic.renew
  rw [find_some now hs]
  dsimp only
  have hpid : (VerifierLogic.UserPatch.ofUser
      { u.convert now with
        renewCount := (u.convert now).renewCount + 1,
        expireTime := (u.convert now).expireTime + cfg.tokenRenew * 1000 }).id
      = engineKey ty id := by
    simp [VerifierLogic.UserPatch.ofUser, UserDO.convert, hid]
  obtain ⟨s', hupd, hwrite, hother, hlidx, hctxs⟩ :=
    update_ok now s (VerifierLogic.UserPatch.ofUser
      { u.convert now with
        renewCount := (u.convert now).renewCount + 1,
        expireTime := (u.convert now).expireTime + cfg.tokenRenew * 1000 })
      u (by rw [hpid, hs])
  rw [hpid] at hwrite hother
  rw [hupd]
  refine ⟨rfl, rfl, _, hwrite, ?_, ?_, ?_, ?_, ?_, ?_, ?_, ?_, hother, hlidx, hctxs⟩ <;>
    simp [RedisDBAdapter.applyPatch, VerifierLogic.UserPatch.ofUser, UserDO.convert]

theorem checkLogin_ok (cfg : NauthConfiguration) (ty id : String) (now : Int)
    (s : Store) (u : UserDO)
    (hs : s.sessions (sessKey (engineKey ty id)) = some u)
    (hid : u.id = engineKey ty id) (hk : u.kicked = false)
    (hexp : ¬((u.convert now).expireTime < now ∧ u.permanent = false)) :
    (VerifierLogic.checkLogin cfg ty now s id).res = .ok () ∧
    ∃ u', (VerifierLogic.checkLogin cfg ty now s id).store.sessions
        (sessKey (engineKey ty id)) = some u' ∧
      u'.id = u.id ∧ u'.token = u.token ∧ u'.disabled = u.disabled ∧
      u'.duration = u.duration ∧ u'.kicked = false ∧ u'.permanent = u.permanent ∧
      (∀ k, k ≠ sessKey (engineKey ty id) →
        (VerifierLogic.checkLogin cfg ty now s id).store.sessions k = s.sessions k) ∧
      (VerifierLogic.checkLogin cfg ty now s id).store.loginIdx = s.loginIdx ∧
      (VerifierLogic.checkLogin cfg ty now s id).store.ctxs = s.ctxs := by
  by_cases hnr : VerifierLogic.needRenew cfg now (u.convert now)
  · rw [checkLogin_renews cfg ty id now s u hs hk hexp hnr]
    obtain ⟨hres, _, u', hw, h1, h2, h3, h4, h5, h6, _, _, hother, hlidx, hctxs⟩ :=
      renew_ok cfg ty id now s u hs hid
    exact ⟨hres, u', hw, h1, h2, h3, h4, by rw [h5, hk], h6, hother, hlidx, hctxs⟩
  · rw [checkLogin_active cfg ty id now s u hs hk hexp hnr]
    exact ⟨rfl, u, hs, rfl, rfl, rfl, rfl, hk, rfl, fun k _ => rfl, rfl, rfl⟩

theorem update_error_storage (now : Int) (s : Store) (p : RedisDBAdapter.UserPatch)
    (e : NauthError) (h : RedisDBAdapter.update now s p = .error e) : ∃ m, e = .storage m := by
  cases hw : s.sessions (sessKey p.id) with
  | some w =>
    obtain ⟨s', hupd, _⟩ := update_ok now s p w hw
    rw [hupd] at h
    exact absurd h (by simp)
  | none =>
    unfold RedisDBAdapter.update at h
    dsimp only at h
    rw [find_none now hw] at h
    exact ⟨_, (Except.error.inj h).symm⟩

theorem sessKey_ne_ctxKey (a : String) : sessKey a ≠ ctxKey a := by
  intro h
  have := congrArg String.length h
  simp [sessKey, ctxKey, String.length_append] at this
  exact absurd this (by decide)

/-- `save` on a validated record: success, dual-index writes, context write
only when non-empty, and the TTL policy on every written key.  The two
collision freedom hypotheses rule out the degenerate ids that make the
session or context key coincide with the reverse index key. -/
theorem save_ok (now : Int) (s : Store) (u : UserDO)
    (hval : UserDO.checkNewUser now u = none)
    (hc1 : sessKey u.id ≠ tokKey u.token) (hc2 : ctxKey u.id ≠ tokKey u.token) :
    ∃ s', RedisDBAdapter.save now s u = .ok s' ∧
      s'.sessions (sessKey u.id) = some { u with ctx := [] } ∧
      s'.loginIdx (tokKey u.token) = some u.id ∧
      (u.ctx ≠ [] → s'.ctxs (ctxKey u.id) = u.ctx) ∧
      (u.ctx = [] → s'.ctxs = s.ctxs) ∧
      (u.permanent = false →
        s'.ttl (sessKey u.id) = some (u.expireTime + 24 * 60 * 60 * 1000 - now) ∧
        s'.ttl (tokKey u.token) = some (u.expireTime + 24 * 60 * 60 * 1000 - now) ∧
        (u.ctx ≠ [] → s'.ttl (ctxKey u.id) = some (u.expireTime + 24 * 60 * 60 * 1000 - now))) ∧
      (u.permanent = true →
        s'.ttl (sessKey u.id) = s.ttl (sessKey u.id) ∧
        s'.ttl (ctxKey u.id) = s.ttl (ctxKey u.id) ∧
        s'.ttl (tokKey u.token) = none) := by
  unfold RedisDBAdapter.save
  rw [hval]
  dsimp only
  cases hp : u.permanent with
  | false =>
    by_cases hc : u.ctx = [] <;>
      refine ⟨_, rfl, ?_, ?_, ?_, ?_, ?_, ?_⟩ <;>
        simp [upd, hp, hc, hc1, hc2, sessKey_ne_ctxKey u.id]
  | true =>
    by_cases hc : u.ctx = [] <;>
      refine ⟨_, rfl, ?_, ?_, ?_, ?_, ?_, ?_⟩ <;>
        simp [upd, hp, hc, hc1, hc2, sessKey_ne_ctxKey u.id]

theorem splitColon_ne_nil (l : List Char) : splitColon l ≠ [] := by
  induction l with
  | nil => simp [splitColon]
  | cons c cs ih =>
    simp only [splitColon]
    cases h : splitColon cs with
    | nil => exact absurd h ih
    | cons hd tl => by_cases hc : c = ':' <;> simp [hc]

theorem splitColon_no_colon (l : List Char) (h : ':' ∉ l) : splitColon l = [l] := by
  induction l with
  | nil => rfl
  | cons c cs ih =>
    simp only [List.mem_cons, not_or] at h
    simp only [splitColon, ih h.2]
    rw [if_neg (Ne.symm h.1)]

theorem splitColon_cons_colon (b : List Char) : splitColon (':' :: b) = [] :: splitColon b := by
  simp only [splitColon]
  cases h : splitColon b with
  | nil => exact absurd h (splitColon_ne_nil b)
  | cons hd tl => simp

theorem splitColon_append (a b : List Char) (h : ':' ∉ a) :
    splitColon (a ++ ':' :: b) = a :: splitColon b := by
  induction a with
  | nil => simp [splitColon_cons_colon b]
  | cons c cs ih =>
    simp only [List.mem_cons, not_or] at h
    rw [List.cons_append]
    simp only [splitColon]
    rw [ih h.2]
    dsimp only
    rw [if_neg (Ne.symm h.1)]

theorem joinColon_splitColon (l : List Char) : joinColon (splitColon l) = l := by
  induction l with
  | nil => rfl
  | cons c cs ih =>
    simp only [splitColon]
    cases h : splitColon cs with
    | nil => exact absurd h (splitColon_ne_nil cs)
    | cons hd tl =>
      rw [h] at ih
      dsimp only
      by_cases hc : c = ':'
      · rw [if_pos hc]
        simp [joinColon, ih, hc]
      · rw [if_neg hc]
        cases tl with
        | nil =>
          simp only [joinColon] at ih ⊢
          rw [ih]
        | cons x xs =>
          simp only [joinColon] at ih ⊢
          simp [ih]

theorem decode_split (p q idl : List Char) (hp : ':' ∉ p) (hq : ':' ∉ q) :
    joinColon ((splitColon (p ++ ':' :: (q ++ ':' :: idl))).drop 2) = idl := by
  rw [splitColon_append _ _ hp, splitColon_append _ _ hq]
  simp [joinColon_splitColon idl]

/-- Decoding a `NAUTH:{TYPE}_LOGIN:{id}` key back to the id, provided the
upper-cased type itself contains no colon; ids may contain colons. -/
theorem loginID_decode (ty id : String) (h : ':' ∉ (jsToUpper ty).data) :
    jsSplitColonJoinDrop2 ("NAUTH:" ++ (jsToUpper ty ++ "_LOGIN:" ++ id)) = id := by
  unfold jsSplitColonJoinDrop2
  have e0 : "NAUTH:".data = "NAUTH".data ++ [':'] := rfl
  have e1 : "_LOGIN:".data = "_LOGIN".data ++ [':'] := rfl
  have e2 : ("NAUTH:" ++ (jsToUpper ty ++ "_LOGIN:" ++ id)).data
      = "NAUTH".data ++ ':' :: (((jsToUpper ty).data ++ "_LOGIN".data) ++ ':' :: id.data) := by
    simp [String.data_append, e0, e1]
  rw [e2]
  have hq : ':' ∉ (jsToUpper ty).data ++ "_LOGIN".data := by
    simp only [List.mem_append, not_or]
    exact ⟨h, by decide⟩
  rw [decode_split _ _ _ (by decide) hq]

/-- C1: the claim reads `disable(id, d)` (for `d ∉ {-1, 0}`) as storing the
absolute deadline `now + d*1000`; the source line `duration *= 1000 +
Date.now()` instead stores `d * (1000 + now)`.  At `now = 1000000`, `d = 2`
the code stores `2002000`, not `1002000`; the partial update succeeds and
only `disabled`/`duration` (plus the `updateTime` stamp) change, so the rest
of the claim (including the `kicked`/`expireTime` non-interference) holds. -/
theorem C1_disable_stores_scaled_not_absolute_deadline :
    ((VerifierLogic.disable 1000000 "user" demoStore "u1" 2).store.sessions
        (sessKey "USER_LOGIN:u1")).map (fun u => u.duration) = some 2002000 ∧
    (2002000 : Int) ≠ 1000000 + 2 * 1000 ∧
    (VerifierLogic.disable 1000000 "user" demoStore "u1" 2).res = .ok () ∧
    ((VerifierLogic.disable 1000000 "user" demoStore "u1" 2).store.sessions
        (sessKey "USER_LOGIN:u1")).map (fun u => (u.kicked, u.expireTime)) =
      some (false, 5000000) := by
  refine ⟨by decide, by decide, by decide, by decide⟩

/-- C10: on a principal with no stored record, each of `kickout`, `disable`,
`enable`, `permanent` and `nonPermanent` fails with the adapter's
existence-check `DbStorageException` ("The user does not exist"), the store
is unchanged, and no event (in particular no `KICKOUT`) is emitted. -/
theorem C10_mutations_fail_on_missing_record (ty id : String) (now d : Int) (s : Store)
    (habs : s.sessions (sessKey (engineKey ty id)) = none) :
    VerifierLogic.kickout now ty s id =
      ⟨.error (.storage "The user does not exist"), s, []⟩ ∧
    VerifierLogic.disable now ty s id d =
      ⟨.error (.storage "The user does not exist"), s, []⟩ ∧
    VerifierLogic.enable now ty s id =
      ⟨.error (.storage "The user does not exist"), s, []⟩ ∧
    VerifierLogic.permanent now ty s id =
      ⟨.error (.storage "The user does not exist"), s, []⟩ ∧
    VerifierLogic.nonPermanent now ty s id =
      ⟨.error (.storage "The user does not exist"), s, []⟩ := by
  refine ⟨?_, ?_, ?_, ?_, ?_⟩ <;>
    simp [VerifierLogic.kickout, VerifierLogic.disable, VerifierLogic.enable,
      VerifierLogic.permanent, VerifierLogic.nonPermanent,
      RedisDBAdapter.update, RedisDBAdapter.find, habs]

/-- Witness for C10 at a concrete missing principal. -/
theorem C10_mutations_fail_on_missing_record_witness :
    Store.empty.sessions (sessKey (engineKey "user" "u1")) = none ∧
    VerifierLogic.kickout 5 "user" Store.empty "u1" =
      ⟨.error (.storage "The user does not exist"), Store.empty, []⟩ :=
  ⟨rfl, (C10_mutations_fail_on_missing_record "user" "u1" 5 3 Store.empty rfl).1⟩

/-- C8 counterexample: the two validation checks in `checkNewUser` are
guarded by JS truthiness of `expireTime`, so a record whose `expireTime` is
`0` — which is not strictly greater than `now = 1000000` — passes
validation and `save` succeeds instead of failing. -/
theorem C8_counterexample_zero_expire_passes_save :
    c8user.expireTime ≤ 1000000 ∧
    exOk (RedisDBAdapter.save 1000000 Store.empty c8user) = true := by
  exact ⟨by decide, rfl⟩

/-- C8 (amended): for a record with a non-zero (JS-truthy) `expireTime`,
`save` fails with a validation error — before any store write — whenever
`expireTime` is within 30 minutes of `now` (which subsumes every
`expireTime ≤ now`), and succeeds whenever `expireTime` is at least 30
minutes in the future; a record with `expireTime = 0` skips validation. -/
theorem C8_save_validation (now : Int) (s : Store) (u : UserDO) (h0 : u.expireTime ≠ 0) :
    (u.expireTime - now < 30 * 60 * 1000 →
      ∃ msg, RedisDBAdapter.save now s u = .error (.validation msg)) ∧
    (30 * 60 * 1000 ≤ u.expireTime - now →
      exOk (RedisDBAdapter.save now s u) = true) := by
  constructor
  · intro hlt
    have hlt' : u.expireTime - now < 1800000 := by omega
    unfold RedisDBAdapter.save UserDO.checkNewUser
    by_cases hlt2 : u.expireTime < now
    · exact ⟨"The expire time does not less than now", by simp [h0, hlt2]⟩
    · exact ⟨"The expire time does not less than 30 minutes", by simp [h0, hlt2, hlt']⟩
  · intro hge
    have h1 : ¬ u.expireTime < now := by omega
    have h2 : ¬ u.expireTime - now < 1800000 := by omega
    unfold RedisDBAdapter.save UserDO.checkNewUser
    simp [h0, h1, h2, exOk]

/-- Witness for C8 (amended) at concrete inputs. -/
theorem C8_save_validation_witness :
    demoUser.expireTime ≠ 0 ∧
    (demoUser.expireTime - 1000000 < 30 * 60 * 1000 →
      ∃ msg, RedisDBAdapter.save 1000000 Store.empty demoUser = .error (.validation msg)) ∧
    (30 * 60 * 1000 ≤ demoUser.expireTime - 1000000 →
      exOk (RedisDBAdapter.save 1000000 Store.empty demoUser) = true) :=
  ⟨by decide, (C8_save_validation 1000000 Store.empty demoUser (by decide)).1,
    (C8_save_validation 1000000 Store.empty demoUser (by decide)).2⟩

/-- C2: after `kickout(id)` on a logged-in principal (record present), the
kick flag is set and `KICKOUT` is emitted; exactly one subsequent
`checkLogin(id)` fails with `KICKED_OUT`, deleting the record and emitting
`KICKOUT_FEEDBACK` carrying the pre-deletion record; every later
`checkLogin(id)` fails with the not-found `NOT_LOGIN` code because the
record no longer exists, leaving the store unchanged. -/
theorem C2_kickout_exclusivity (cfg : NauthConfiguration) (ty id : String)
    (now now₁ : Int) (s : Store) (u : UserDO)
    (hs : s.sessions (sessKey (engineKey ty id)) = some u) :
    (VerifierLogic.kickout now ty s id).res = .ok () ∧
    (VerifierLogic.kickout now ty s id).events = [⟨.KICKOUT, .uid id⟩] ∧
    ∃ v, RedisDBAdapter.find now₁ (VerifierLogic.kickout now ty s id).store
        (engineKey ty id) = some v ∧
      v.kicked = true ∧
      VerifierLogic.checkLogin cfg ty now₁ (VerifierLogic.kickout now ty s id).store id =
        ⟨.error (.notLogin "The user is kicked out" .KICKED_OUT),
          delStore (VerifierLogic.kickout now ty s id).store (engineKey ty id),
          [⟨.KICKOUT_FEEDBACK, .user (some v)⟩]⟩ ∧
      (delStore (VerifierLogic.kickout now ty s id).store (engineKey ty id)).sessions
          (sessKey (engineKey ty id)) = none ∧
      ∀ now₂, VerifierLogic.checkLogin cfg ty now₂
          (delStore (VerifierLogic.kickout now ty s id).store (engineKey ty id)) id =
        ⟨.error (.notLogin "The user is not logged in" .NOT_LOGIN),
          delStore (VerifierLogic.kickout now ty s id).store (engineKey ty id), []⟩ := by
  obtain ⟨s', hupd, hwrite, hother, hlidx, hctxs⟩ :=
    update_ok now s { id := engineKey ty id, kicked := some true } u hs
  have hko : VerifierLogic.kickout now ty s id = ⟨.ok (), s', [⟨.KICKOUT, .uid id⟩]⟩ := by
    unfold VerifierLogic.kickout
    rw [hupd]
  rw [hko]
  dsimp only
  refine ⟨rfl, rfl, _, find_some now₁ hwrite, ?_, ?_, ?_, ?_⟩
  · rw [UserDO.convert_kicked]
    simp [RedisDBAdapter.applyPatch]
  · exact checkLogin_kicked cfg ty id now₁ s' _ hwrite (by simp [RedisDBAdapter.applyPatch])
  · exact upd_self _ _ _
  · intro now₂
    exact checkLogin_notfound cfg ty id now₂ _ (upd_self _ _ _)

/-- Witness for C2 at a concrete logged-in principal. -/
theorem C2_kickout_exclusivity_witness :
    demoStore.sessions (sessKey (engineKey "user" "u1")) = some demoUser ∧
    (VerifierLogic.kickout 5 "user" demoStore "u1").res = .ok () :=
  ⟨by decide,
    (C2_kickout_exclusivity defaultCfg "user" "u1" 5 6 demoStore demoUser (by decide)).1⟩

/-- C3 counterexample: a stored record with `permanent = false`, `kicked =
false` and `expireTime = 0 < now` does not make `checkLogin` fail: `find`
re-defaults the JS-falsy stored `0` to `now + 15 days`, so the expiry
branch is skipped, the record is not deleted and the call succeeds —
against the claim that every non-permanent record with `expireTime < now`
fails with `Expired`. -/
theorem C3_counterexample_zero_expire_not_expired :
    zeroExpireUser.permanent = false ∧
    zeroExpireUser.kicked = false ∧
    zeroExpireUser.expireTime < 1000000 ∧
    (VerifierLogic.checkLogin defaultCfg "user" 1000000 zeroExpireStore "u1").res = .ok () ∧
    (VerifierLogic.checkLogin defaultCfg "user" 1000000 zeroExpireStore "u1").store.sessions
        (sessKey "USER_LOGIN:u1") = some zeroExpireUser := by
  refine ⟨rfl, rfl, by decide, by decide, by decide⟩

/-- C3 (amended): for a stored record with a non-zero `expireTime`: if not
kicked, not permanent and `expireTime < now`, `checkLogin` always fails with
`LOGIN_EXPIRED` and deletes the record (emitting `EXPIRED`); a permanent
record never fails with the expiry code no matter how old its `expireTime`;
and a kicked record fails `KICKED_OUT` even when also expired (kick check
precedes expiry check precedes renew check).  A stored `expireTime` of `0`
is exempt, because the record parser re-defaults it to `now + 15 days`. -/
theorem C3_expiry_behavior (cfg : NauthConfiguration) (ty id : String) (now : Int)
    (s : Store) (u : UserDO)
    (hs : s.sessions (sessKey (engineKey ty id)) = some u) :
    (u.kicked = false → u.permanent = false → u.expireTime ≠ 0 → u.expireTime < now →
      VerifierLogic.checkLogin cfg ty now s id =
        ⟨.error (.notLogin "The user is expired" .LOGIN_EXPIRED),
          delStore s (engineKey ty id), [⟨.EXPIRED, .uid id⟩]⟩ ∧
      (delStore s (engineKey ty id)).sessions (sessKey (engineKey ty id)) = none) ∧
    (u.permanent = true →
      ∀ msg, (VerifierLogic.checkLogin cfg ty now s id).res ≠
        .error (.notLogin msg .LOGIN_EXPIRED)) ∧
    (u.kicked = true →
      (VerifierLogic.checkLogin cfg ty now s id).res =
        .error (.notLogin "The user is kicked out" .KICKED_OUT)) := by
  refine ⟨?_, ?_, ?_⟩
  · intro hk hp h0 hlt
    have hlt' : (u.convert now).expireTime < now := by
      rw [UserDO.convert_expireTime_of_ne now u h0]
      exact hlt
    exact ⟨checkLogin_expired cfg ty id now s u hs hk hp hlt', upd_self _ _ _⟩
  · intro hp msg
    cases hk : u.kicked with
    | true =>
      rw [checkLogin_kicked cfg ty id now s u hs hk]
      simp
    | false =>
      have hexp : ¬((u.convert now).expireTime < now ∧ u.permanent = false) := by
        rw [hp]
        simp
      by_cases hnr : VerifierLogic.needRenew cfg now (u.convert now)
      · rw [checkLogin_renews cfg ty id now s u hs hk hexp hnr]
        unfold VerifierLogic.renew
        rw [find_some now hs]
        dsimp only
        split
        · simp
        · next e heq =>
            obtain ⟨m, rfl⟩ := update_error_storage _ _ _ _ heq
            simp
      · rw [checkLogin_active cfg ty id now s u hs hk hexp hnr]
        simp
  · intro hk
    rw [checkLogin_kicked cfg ty id now s u hs hk]

/-- Witness for C3 (amended) at a concrete expired record. -/
theorem C3_expiry_behavior_witness :
    demoStore.sessions (sessKey (engineKey "user" "u1")) = some demoUser ∧
    (demoUser.kicked = false → demoUser.permanent = false → demoUser.expireTime ≠ 0 →
      demoUser.expireTime < 6000000 →
      VerifierLogic.checkLogin defaultCfg "user" 6000000 demoStore "u1" =
        ⟨.error (.notLogin "The user is expired" .LOGIN_EXPIRED),
          delStore demoStore (engineKey "user" "u1"), [⟨.EXPIRED, .uid "u1"⟩]⟩ ∧
      (delStore demoStore (engineKey "user" "u1")).sessions
          (sessKey (engineKey "user" "u1")) = none) :=
  ⟨by decide,
    (C3_expiry_behavior defaultCfg "user" "u1" 6000000 demoStore demoUser (by decide)).1⟩

/-- C5 counterexample: the scenario `login('u1') → T`, expiry observed by
`checkLogin` (which performs the lazy cleanup), then `loginID(T)`: the claim
says the reverse index is deleted together with the session hash, so
`loginID(T)` should be `null`; in the code `delete` issues a single
`DEL NAUTH:{id}`, so the reverse index survives and `loginID(T)` still
returns `"u1"`. -/
theorem C5_counterexample_reverse_index_survives :
    (VerifierLogic.login defaultCfg "user" 0 "T" Store.empty "u1").res = .ok "T" ∧
    (VerifierLogic.checkLogin defaultCfg "user" 300000000
        (VerifierLogic.login defaultCfg "user" 0 "T" Store.empty "u1").store "u1").res =
      .error (.notLogin "The user is expired" .LOGIN_EXPIRED) ∧
    VerifierLogic.info 300000000 "user"
        (VerifierLogic.checkLogin defaultCfg "user" 300000000
          (VerifierLogic.login defaultCfg "user" 0 "T" Store.empty "u1").store "u1").store
        "u1" = none ∧
    VerifierLogic.loginID
        (VerifierLogic.checkLogin defaultCfg "user" 300000000
          (VerifierLogic.login defaultCfg "user" 0 "T" Store.empty "u1").store "u1").store
        "T" = some "u1" := by
  refine ⟨by decide, by decide, by decide, by decide⟩

/-- C5 (amended): `delete(id)` requires existence but removes only the
session hash (and its TTL); the reverse token index and the context hash are
not deleted — they are left to lapse via their own TTLs — so after a lazy
cleanup the old token still reverse-resolves to the principal. -/
theorem C5_delete_removes_only_session_hash (s : Store) (id : String) (u : UserDO)
    (hs : s.sessions (sessKey id) = some u) :
    RedisDBAdapter.delete s id = .ok (delStore s id) ∧
    (delStore s id).sessions (sessKey id) = none ∧
    (delStore s id).ttl (sessKey id) = none ∧
    (delStore s id).loginIdx = s.loginIdx ∧
    (delStore s id).ctxs = s.ctxs ∧
    (∀ k, k ≠ sessKey id →
      (delStore s id).sessions k = s.sessions k ∧ (delStore s id).ttl k = s.ttl k) ∧
    (∀ tok, VerifierLogic.loginID (delStore s id) tok = VerifierLogic.loginID s tok) :=
  ⟨delete_some hs, upd_self _ _ _, upd_self _ _ _, rfl, rfl,
    fun _ hk => ⟨upd_ne _ _ hk, upd_ne _ _ hk⟩, fun _ => rfl⟩

/-- Witness for C5 (amended) at a concrete record. -/
theorem C5_delete_removes_only_session_hash_witness :
    demoStore.sessions (sessKey "USER_LOGIN:u1") = some demoUser ∧
    RedisDBAdapter.delete demoStore "USER_LOGIN:u1" =
      .ok (delStore demoStore "USER_LOGIN:u1") :=
  ⟨by decide,
    (C5_delete_removes_only_session_hash demoStore "USER_LOGIN:u1" demoUser (by decide)).1⟩

/-- C4: for a logged-in principal (record present under its own id, not
kicked, not expired at `now`), `checkDisable` first performs `checkLogin`
and then, if the record is disabled: a stored ban value of `-1` fails with
the permanent-ban code `BANNED` and leaves the ban fields untouched — so
every further call fails the same way — until `enable(id)` is invoked,
after which `checkDisable` succeeds; a stored ban value of `0` or one `≤
now` clears the ban (`disabled = false`, `duration = 0`) and returns
success; any future ban value fails with the temporary-ban code
`SHORT_BAN`. -/
theorem C4_checkDisable_bans (cfg : NauthConfiguration) (ty id : String) (now : Int)
    (s : Store) (u : UserDO)
    (hs : s.sessions (sessKey (engineKey ty id)) = some u)
    (hid : u.id = engineKey ty id) (hk : u.kicked = false)
    (hexp : ¬((u.convert now).expireTime < now ∧ u.permanent = false)) :
    (∀ s₀ e, (VerifierLogic.checkLogin cfg ty now s₀ id).res = .error e →
      (VerifierLogic.checkDisable cfg ty now s₀ id).res = .error e) ∧
    (u.disabled = true → u.duration = -1 →
      (VerifierLogic.checkDisable cfg ty now s id).res =
        .error (.notLogin "The user is permanently disabled" .BANNED) ∧
      ∃ w, (VerifierLogic.checkDisable cfg ty now s id).store.sessions
          (sessKey (engineKey ty id)) = some w ∧
        w.disabled = true ∧ w.duration = -1 ∧ w.id = u.id ∧ w.kicked = false ∧
        w.permanent = u.permanent) ∧
    (u.disabled = true → u.duration ≠ -1 → (u.duration ≤ now ∨ u.duration = 0) →
      (VerifierLogic.checkDisable cfg ty now s id).res = .ok () ∧
      ∃ w, (VerifierLogic.checkDisable cfg ty now s id).store.sessions
          (sessKey (engineKey ty id)) = some w ∧
        w.disabled = false ∧ w.duration = 0) ∧
    (u.disabled = true → u.duration ≠ -1 → now < u.duration → u.duration ≠ 0 →
      (VerifierLogic.checkDisable cfg ty now s id).res =
        .error (.notLogin "The user is disabled now" .SHORT_BAN)) ∧
    (u.disabled = false →
      (VerifierLogic.checkDisable cfg ty now s id).res = .ok ()) ∧
    ((VerifierLogic.enable now ty s id).res = .ok () ∧
      ∃ w, (VerifierLogic.enable now ty s id).store.sessions
          (sessKey (engineKey ty id)) = some w ∧ w.disabled = false ∧ w.duration = 0 ∧
        (VerifierLogic.checkDisable cfg ty now
          (VerifierLogic.enable now ty s id).store id).res = .ok ()) := by
  obtain ⟨hres, w, hw, hwid, hwtok, hwdis, hwdur, hwk, hwperm, hother, hlidx, hctxs⟩ :=
    checkLogin_ok cfg ty id now s u hs hid hk hexp
  have hfind := find_some now hw
  refine ⟨?_, ?_, ?_, ?_, ?_, ?_⟩
  · intro s₀ e he
    unfold VerifierLogic.checkDisable
    dsimp only
    rw [he]
  · intro hd hdur
    unfold VerifierLogic.checkDisable
    dsimp only
    rw [hres]
    dsimp only
    rw [hfind]
    dsimp only
    rw [if_pos (show (w.convert now).disabled = true by
          rw [UserDO.convert_disabled, hwdis, hd]),
        if_pos (show (w.convert now).duration = -1 by
          rw [UserDO.convert_duration, hwdur, hdur])]
    exact ⟨rfl, w, hw, hwdis.trans hd, hwdur.trans hdur, hwid, hwk, hwperm⟩
  · intro hd hdne hle
    unfold VerifierLogic.checkDisable
    dsimp only
    rw [hres]
    dsimp only
    rw [hfind]
    dsimp only
    rw [if_pos (show (w.convert now).disabled = true by
          rw [UserDO.convert_disabled, hwdis, hd]),
        if_neg (show ¬ (w.convert now).duration = -1 by
          rw [UserDO.convert_duration, hwdur]; exact hdne),
        if_pos (show ¬ (w.convert now).duration > now ∨ (w.convert now).duration = 0 by
          rw [UserDO.convert_duration, hwdur]
          rcases hle with h | h
          · exact Or.inl (not_lt.mpr h)
          · exact Or.inr h)]
    obtain ⟨s2, hupd2, hwrite2, _, _, _⟩ :=
      update_ok now (VerifierLogic.checkLogin cfg ty now s id).store
        { id := engineKey ty id, disabled := some false, duration := some 0 } w hw
    have hen : VerifierLogic.enable now ty
        (VerifierLogic.checkLogin cfg ty now s id).store id = ⟨.ok (), s2, []⟩ := by
      unfold VerifierLogic.enable
      rw [hupd2]
    rw [hen]
    dsimp only
    refine ⟨rfl, _, hwrite2, ?_, ?_⟩ <;> simp [RedisDBAdapter.applyPatch]
  · intro hd hdne hgt hne0
    unfold VerifierLogic.checkDisable
    dsimp only
    rw [hres]
    dsimp only
    rw [hfind]
    dsimp only
    rw [if_pos (show (w.convert now).disabled = true by
          rw [UserDO.convert_disabled, hwdis, hd]),
        if_neg (show ¬ (w.convert now).duration = -1 by
          rw [UserDO.convert_duration, hwdur]; exact hdne),
        if_neg (show ¬ (¬ (w.convert now).duration > now ∨ (w.convert now).duration = 0) by
          rw [UserDO.convert_duration, hwdur]
          push_neg
          exact ⟨hgt, hne0⟩)]
  · intro hd
    unfold VerifierLogic.checkDisable
    dsimp only
    rw [hres]
    dsimp only
    rw [hfind]
    dsimp only
    rw [if_neg (show ¬ (w.convert now).disabled = true by
          rw [UserDO.convert_disabled, hwdis, hd]; simp)]
  · obtain ⟨sE, hupdE, hwriteE, hotherE, hlidxE, hctxsE⟩ :=
      update_ok now s { id := engineKey ty id, disabled := some false, duration := some 0 } u hs
    have hE : VerifierLogic.enable now ty s id = ⟨.ok (), sE, []⟩ := by
      unfold VerifierLogic.enable
      rw [hupdE]
    rw [hE]
    dsimp only
    refine ⟨rfl, _, hwriteE, by simp [RedisDBAdapter.applyPatch],
      by simp [RedisDBAdapter.applyPatch], ?_⟩
    obtain ⟨hres2, w2, hw2, h2id, h2tok, h2dis, h2dur, h2k, h2perm, _, _, _⟩ :=
      checkLogin_ok cfg ty id now sE _ hwriteE
        (by simp [RedisDBAdapter.applyPatch, hid])
        (by simp [RedisDBAdapter.applyPatch, hk])
        (by simpa [RedisDBAdapter.applyPatch, UserDO.convert] using hexp)
    unfold VerifierLogic.checkDisable
    dsimp only
    rw [hres2]
    dsimp only
    rw [find_some now hw2]
    dsimp only
    rw [if_neg (show ¬ (w2.convert now).disabled = true by
          rw [UserDO.convert_disabled, h2dis]
          simp [RedisDBAdapter.applyPatch])]

/-- Witness for C4 at a concretely banned principal. -/
theorem C4_checkDisable_bans_witness :
    permBanStore.sessions (sessKey (engineKey "user" "u1")) = some permBanUser ∧
    permBanUser.id = engineKey "user" "u1" ∧
    permBanUser.kicked = false ∧
    ¬(((permBanUser.convert 1000000).expireTime < 1000000 ∧ permBanUser.permanent = false)) ∧
    (permBanUser.disabled = true → permBanUser.duration = -1 →
      (VerifierLogic.checkDisable defaultCfg "user" 1000000 permBanStore "u1").res =
        .error (.notLogin "The user is permanently disabled" .BANNED) ∧
      ∃ w, (VerifierLogic.checkDisable defaultCfg "user" 1000000 permBanStore "u1").store.sessions
          (sessKey (engineKey "user" "u1")) = some w ∧
        w.disabled = true ∧ w.duration = -1 ∧ w.id = permBanUser.id ∧ w.kicked = false ∧
        w.permanent = permBanUser.permanent) :=
  ⟨by decide, by decide, by decide, by decide,
    (C4_checkDisable_bans defaultCfg "user" "u1" 1000000 permBanStore permBanUser
      (by decide) (by decide) (by decide) (by decide)).2.1⟩

/-- C7: on a validated record, `save` succeeds and in one batch writes the
whole record into the session hash, every context entry into the context
hash (only when the context is non-empty), and the reverse index `token →
id`; when `permanent` is false every written key receives the same
millisecond TTL `expireTime + gracePeriod(24h) - now`, and when `permanent`
is true no TTL is set on any of them (the reverse-index `SET` leaves that
key without a TTL and the hash TTLs are not touched). -/
theorem C7_save_atomic_writes (now : Int) (s : Store) (u : UserDO)
    (hval : UserDO.checkNewUser now u = none)
    (hc1 : sessKey u.id ≠ tokKey u.token) (hc2 : ctxKey u.id ≠ tokKey u.token) :
    ∃ s', RedisDBAdapter.save now s u = .ok s' ∧
      s'.sessions (sessKey u.id) = some { u with ctx := [] } ∧
      s'.loginIdx (tokKey u.token) = some u.id ∧
      (u.ctx ≠ [] → s'.ctxs (ctxKey u.id) = u.ctx) ∧
      (u.ctx = [] → s'.ctxs = s.ctxs) ∧
      (u.permanent = false →
        s'.ttl (sessKey u.id) = some (u.expireTime + 24 * 60 * 60 * 1000 - now) ∧
        s'.ttl (tokKey u.token) = some (u.expireTime + 24 * 60 * 60 * 1000 - now) ∧
        (u.ctx ≠ [] → s'.ttl (ctxKey u.id) = some (u.expireTime + 24 * 60 * 60 * 1000 - now))) ∧
      (u.permanent = true →
        s'.ttl (sessKey u.id) = s.ttl (sessKey u.id) ∧
        s'.ttl (ctxKey u.id) = s.ttl (ctxKey u.id) ∧
        s'.ttl (tokKey u.token) = none) :=
  save_ok now s u hval hc1 hc2

/-- Witness for C7 at a concrete record. -/
theorem C7_save_atomic_writes_witness :
    UserDO.checkNewUser 0 demoUser = none ∧
    exOk (RedisDBAdapter.save 0 Store.empty demoUser) = true := by
  refine ⟨by decide, ?_⟩
  obtain ⟨s', hsave, _⟩ :=
    C7_save_atomic_writes 0 Store.empty demoUser (by decide) (by decide) (by decide)
  rw [hsave]
  rfl

/-- C9: a successful `login(id)` returns the generated token, an immediately
following `checkLogin(id)` succeeds, `info(id)` holds that token, and
`loginID(token)` decodes the namespaced reverse-index entry back to the
original principal id — including ids that contain `':'` — provided the
upper-cased engine type contains no `':'`, the configured lifetime is at
least the 30-minute validation lead (else `login` is rejected by `save`'s
validation), and the engine key does not collide with the reverse-index
key. -/
theorem C9_login_roundtrip (cfg : NauthConfiguration) (ty id token : String)
    (now : Int) (s : Store)
    (hnow : 0 ≤ now) (htt : 1800 ≤ cfg.tokenTimeout)
    (hty : ':' ∉ (jsToUpper ty).data)
    (hc1 : sessKey (engineKey ty id) ≠ tokKey token)
    (hc2 : ctxKey (engineKey ty id) ≠ tokKey token) :
    (VerifierLogic.login cfg ty now token s id).res = .ok token ∧
    (VerifierLogic.checkLogin cfg ty now
        (VerifierLogic.login cfg ty now token s id).store id).res = .ok () ∧
    (∃ v, VerifierLogic.info now ty
        (VerifierLogic.login cfg ty now token s id).store id = some v ∧
      v.token = token) ∧
    VerifierLogic.loginID (VerifierLogic.login cfg ty now token s id).store token =
      some id := by
  have hexpire : now + cfg.tokenTimeout * 1000 ≠ 0 := by omega
  have hmk : (UserDO.make (engineKey ty id) ty token now
      (now + cfg.tokenTimeout * 1000)).expireTime = now + cfg.tokenTimeout * 1000 := by
    simp [UserDO.make, hexpire]
  have hval : UserDO.checkNewUser now
      (UserDO.make (engineKey ty id) ty token now (now + cfg.tokenTimeout * 1000)) = none := by
    have h1 : ¬((UserDO.make (engineKey ty id) ty token now
        (now + cfg.tokenTimeout * 1000)).expireTime < now) := by
      rw [hmk]; omega
    have h2 : ¬((UserDO.make (engineKey ty id) ty token now
        (now + cfg.tokenTimeout * 1000)).expireTime - now < 1800000) := by
      rw [hmk]; omega
    simp [UserDO.checkNewUser, h1, h2]
  obtain ⟨s', hsave, hsess, hlidx, _, _, _, _⟩ :=
    save_ok now s (UserDO.make (engineKey ty id) ty token now
      (now + cfg.tokenTimeout * 1000)) hval hc1 hc2
  have hlog : VerifierLogic.login cfg ty now token s id =
      ⟨.ok token, s',
        [⟨.LOGIN, .user (some (UserDO.make (engineKey ty id) ty token now
          (now + cfg.tokenTimeout * 1000)))⟩]⟩ := by
    unfold VerifierLogic.login
    dsimp only
    rw [hsave]
  rw [hlog]
  dsimp only
  have hexp : ¬((({ UserDO.make (engineKey ty id) ty token now
      (now + cfg.tokenTimeout * 1000) with ctx := [] } : UserDO).convert now).expireTime < now ∧
      ({ UserDO.make (engineKey ty id) ty token now
        (now + cfg.tokenTimeout * 1000) with ctx := [] } : UserDO).permanent = false) := by
    intro hcontra
    have hce : (({ UserDO.make (engineKey ty id) ty token now
        (now + cfg.tokenTimeout * 1000) with ctx := [] } : UserDO).convert now).expireTime =
        now + cfg.tokenTimeout * 1000 := by
      show (if (UserDO.make (engineKey ty id) ty token now
        (now + cfg.tokenTimeout * 1000)).expireTime = 0 then _ else _) = _
      rw [hmk]
      simp [hexpire]
    rw [hce] at hcontra
    omega
  refine ⟨rfl, ?_, ?_, ?_⟩
  · exact (checkLogin_ok cfg ty id now s' _ hsess rfl rfl hexp).1
  · exact ⟨_, find_some now hsess, rfl⟩
  · have hlidx' : s'.loginIdx (tokKey token) = some (engineKey ty id) := hlidx
    unfold VerifierLogic.loginID RedisDBAdapter.key
    rw [hlidx']
    dsimp only
    exact congrArg some (loginID_decode ty id hty)

/-- Witness for C9 at a concrete principal whose id contains a colon. -/
theorem C9_login_roundtrip_witness :
    (0 : Int) ≤ 0 ∧ (1800 : Int) ≤ defaultCfg.tokenTimeout ∧
    (VerifierLogic.login defaultCfg "user" 0 "tok" Store.empty "a:b").res = .ok "tok" ∧
    VerifierLogic.loginID
      (VerifierLogic.login defaultCfg "user" 0 "tok" Store.empty "a:b").store "tok" =
      some "a:b" := by
  have h := C9_login_roundtrip defaultCfg "user" "a:b" "tok" 0 Store.empty
    (by decide) (by decide) (by decide) (by decide) (by decide)
  exact ⟨by decide, by decide, h.1, h.2.2.2⟩

theorem head?_drop {α : Type} (l : List α) (k : Nat) : (l.drop k).head? = l[k]? := by
  induction l generalizing k with
  | nil => simp
  | cons a as ih =>
    cases k with
    | zero => simp
    | succ n => simp [ih n]

theorem acquireAt_le (hold : Nat → Nat) (lockTimeout : Nat)
    (hhold : ∀ k, hold k ≤ lockTimeout) (k : Nat) :
    FairLock.acquireAt hold k ≤ k * lockTimeout := by
  induction k with
  | zero => simp [FairLock.acquireAt]
  | succ n ih =>
    have := hhold n
    simp only [FairLock.acquireAt, Nat.succ_mul]
    omega

/-- C6: in the spec-modelled fair-lock protocol, acquisition times follow
the FIFO ticket order (caller `i` acquires no later than any caller queued
behind it), a caller acquires only when its ticket is at the head of the
wait queue, `acquireLock` fails with `LOCK_TIMEOUT` exactly when the
scheduled acquisition time exceeds `acquireTimeout`, and no caller among
`N` is starved as long as `acquireTimeout > N × lockTimeout` (each hold
being bounded by the lock key's `lockTimeout` self-expiry). -/
theorem C6_fair_lock_fifo (N lockTimeout acquireTimeout : Nat) (hold : Nat → Nat)
    (hhold : ∀ k, hold k ≤ lockTimeout)
    (hto : N * lockTimeout < acquireTimeout) :
    (∀ i j, i ≤ j → FairLock.acquireAt hold i ≤ FairLock.acquireAt hold j) ∧
    (∀ k, k < N → (FairLock.queueAfter N k).head? = some k) ∧
    (∀ T k, FairLock.lockResult T hold k = .error .LOCK_TIMEOUT ↔
      T < FairLock.acquireAt hold k) ∧
    (∀ k, k < N →
      FairLock.lockResult acquireTimeout hold k = .ok (FairLock.acquireAt hold k)) := by
  refine ⟨?_, ?_, ?_, ?_⟩
  · exact fun i j hij =>
      monotone_nat_of_le_succ (fun n => by simp [FairLock.acquireAt]) hij
  · intro k hk
    unfold FairLock.queueAfter
    rw [head?_drop]
    simp [hk]
  · intro T k
    by_cases h : FairLock.acquireAt hold k ≤ T
    · simp only [FairLock.lockResult, if_pos h]
      constructor
      · intro hcontra
        exact absurd hcontra (by simp)
      · omega
    · simp only [FairLock.lockResult, if_neg h]
      constructor
      · intro _
        omega
      · intro _
        trivial
  · intro k hk
    have h1 : FairLock.acquireAt hold k ≤ k * lockTimeout := acquireAt_le hold lockTimeout hhold k
    have h2 : k * lockTimeout ≤ N * lockTimeout := Nat.mul_le_mul_right _ (Nat.le_of_lt hk)
    have h3 : FairLock.acquireAt hold k ≤ acquireTimeout := by omega
    simp [FairLock.lockResult, h3]

/-- Witness for C6 with three callers, 100 ms holds and a 301 ms bound. -/
theorem C6_fair_lock_fifo_witness :
    (∀ k, (fun _ : Nat => 100) k ≤ 100) ∧ 3 * 100 < 301 ∧
    FairLock.lockResult 301 (fun _ : Nat => 100) 2 = .ok (FairLock.acquireAt (fun _ : Nat => 100) 2) :=
  ⟨fun _ => Nat.le_refl 100, by decide,
    (C6_fair_lock_fifo 3 100 301 (fun _ : Nat => 100) (fun _ => Nat.le_refl 100)
      (by decide)).2.2.2 2 (by decide)⟩

end Nauth
